import Mathlib

/-!
Verification development for the IntelliJect repository, a small web
application that uploads PDFs of study notes, splits each PDF into one text
chunk per page, infers a subtopic per chunk through an LLM call, retrieves
related previous-year questions (PYQs) from a relational store through a
vector-similarity search, extracts answer excerpts for each matched question
through another LLM call, and highlights the excerpts on the rendered page
image.

Shallow embedding conventions:
  - External collaborators (the LLM, the embedding/vector index, the PDF
    renderer, the sentence tokenizer) are modelled as oracle functions
    collected in a World structure; fallible calls return Except.
  - A PDF is a list of pages; a page carries the plain text that the
    renderer (PyMuPDF page.get_text) extracts from it.
  - The relational store is a list of PYQ records; the upload-history table
    is a list of history records; committing appends.
  - Machine floats (the marks column, rectangle coordinates) are carried but
    never computed on; they are represented by Int carriers.
  - HTTP outcomes are Except values with a status code and a detail string.
  - The order of external calls performed by the /process-pdf handler is
    recorded as a trace of events, emitted exactly where the source code
    performs the corresponding call.
-/

namespace IntelliJect

/-- One row of the pyqs table (src/models.py, class PYQ).  The id column is
autoassigned and never read by the code under verification, so it is
omitted.  The marks column is a Float in the source used only as carried
data, represented here by an Int carrier. -/
structure PYQ where
  question : String
  year : String
  semester : Option String
  branch : Option String
  unit : Option String
  marks : Int
  sub_topic : String
  subject : String
deriving Repr, DecidableEq

/-- A retrieval document as built by load_vectorstore_from_db
(src/rag_pipeline.py): page_content is the PYQ question text and the
metadata dictionary carries year, subject, sub_topic and marks. -/
structure Document where
  page_content : String
  year : String
  subject : String
  sub_topic : String
  marks : Int
deriving Repr, DecidableEq

/-- One JSON entry handed to store_pyqs (src/crud.py): a dictionary whose
keys may be absent, read with entry.get and a default. -/
structure PyqEntry where
  question : Option String
  sub_topic : Option String
  marks : Option Int
  year : Option String
deriving Repr, DecidableEq

/-- One row of the pdf_history table (src/models.py, class PDFHistory).
The timestamp is an abstract tick. -/
structure HistoryRec where
  filename : String
  subject : String
  timestamp : Nat
deriving Repr, DecidableEq

/-- A page of a PDF document; text is the plain text that
page.get_text("text") extracts from it. -/
structure Page where
  text : String
deriving Repr, DecidableEq

/-- A PDF document as seen through PyMuPDF: a list of pages.
page_count is pages.length. -/
structure PDF where
  pages : List Page
deriving Repr, DecidableEq

/-- A rectangle returned by page.search_for.  Coordinates are floats in
PyMuPDF, carried but never computed on; Int carriers. -/
structure Rect where
  x0 : Int
  y0 : Int
  x1 : Int
  y1 : Int
deriving Repr, DecidableEq

/-- An HTTP error outcome: the status code and detail of the HTTPException
(or of the framework default 500 response when an exception escapes the
handler). -/
structure HttpError where
  status : Nat
  detail : String
deriving Repr, DecidableEq

/-- The per-question dictionary assembled in process_pdf
(src/fastapi_app.py): question text, sub_topic, marks and year copied from
the matched document metadata, plus the extracted answer. -/
structure QuestionData where
  question : String
  sub_topic : String
  marks : Int
  year : String
  answer : String
deriving Repr, DecidableEq

/-- The ChunkData response model of src/fastapi_app.py. -/
structure ChunkData where
  chunk_index : Nat
  subtopic : String
  questions : List QuestionData
  highlighted_image : String
  answers_highlighted : List String
deriving Repr, DecidableEq

/-- The ProcessedPDFResponse response model of src/fastapi_app.py. -/
structure ProcessedPDFResponse where
  success : Bool
  message : String
  total_chunks : Nat
  chunk_data : List ChunkData
deriving Repr, DecidableEq

/-- The PDFResponse response model of src/fastapi_app.py. -/
structure PDFResponse where
  success : Bool
  message : String
  chunks_count : Nat
deriving Repr, DecidableEq

/-- An external call performed by the /process-pdf handler, recorded in the
order the handler performs it. -/
inductive Event where
  | extractText : Event
  | subtopicCall : Nat → Event
  | retrievalCall : Nat → Event
  | answerCall : Nat → Nat → String → String → Event
  | renderCall : Nat → Event
deriving Repr, DecidableEq

/-- Recognizes the answer-extraction LLM call events of a trace. -/
def Event.isAnswerCall : Event → Bool
  | .answerCall _ _ _ _ => true
  | _ => false

/-- The external collaborators of the pipeline, as oracles.

subtopicLLM: llm.predict applied to the subtopic prompt (may raise).
answerLLM: llm.predict applied to the answer-extraction prompt (may raise).
sent_tokenize: the NLTK sentence tokenizer (may raise).
from_documents_fails: whether FAISS.from_documents (which embeds every
  document through the OpenAI embeddings API) raises on the given documents.
similarity_rank: the similarity ordering FAISS assigns to the stored
  documents for a query; similarity_search(query, k) returns the first k.
search_for: page.search_for on page index i for a text fragment, listing
  every location where the fragment is found on that page.
render_page: rendering page i carrying the given highlight marks to a
  base64 PNG string (get_pixmap, PIL, base64; may raise). -/
structure World where
  subtopicLLM : String → Except String String
  answerLLM : String → Except String String
  sent_tokenize : String → Except String (List String)
  from_documents_fails : List Document → Bool
  similarity_rank : String → List Document → List Document
  search_for : Nat → String → List Rect
  render_page : Nat → List (String × Rect) → Except String String

/-! ## src/utils.py -/

/-- extract_text_from_pdf (src/utils.py): one text chunk per page, the plain
text of that page. -/
def extract_text_from_pdf (pdf : PDF) : List String :=
  pdf.pages.map Page.text

/-! ## src/rag_pipeline.py -/

/-- The prompt built by infer_subtopic (src/rag_pipeline.py). -/
def subtopic_prompt (text : String) : String :=
  "Read the following academic content and suggest the most relevant subtopic (like Firewall, Water Pollution, etc.) in 2-3 words:\n\n"
    ++ text ++ "\n\nSubtopic:"

/-- Python str.strip(): removes leading and trailing whitespace at both
ends.  Modelled on the character list so that it evaluates inside the
kernel (Lean's byte-level String.trim does not). -/
def py_strip (s : String) : String :=
  ⟨((s.data.dropWhile Char.isWhitespace).reverse.dropWhile Char.isWhitespace).reverse⟩

/-- infer_subtopic (src/rag_pipeline.py): llm.predict(prompt).strip(), and
"General" when the call raises.  (The handler in process_pdf additionally
maps any escaping exception to "General"; both paths yield "General".) -/
def infer_subtopic (w : World) (text : String) : String :=
  match w.subtopicLLM (subtopic_prompt text) with
  | .ok s => py_strip s
  | .error _ => "General"

/-- The Document built from one PYQ row by load_vectorstore_from_db. -/
def to_document (p : PYQ) : Document :=
  { page_content := p.question
    year := p.year
    subject := p.subject
    sub_topic := p.sub_topic
    marks := p.marks }

/-- Python truthiness of the optional subject argument: the subject filter
applies exactly when a non-empty subject string is given
(src/rag_pipeline.py, if subject:). -/
def subject_truthy : Option String → Bool
  | some s => s ≠ ""
  | none => false

/-- The rows selected by load_vectorstore_from_db: all PYQ rows, filtered by
subject equality when a non-empty subject is given. -/
def subject_filter (pyqs : List PYQ) (subject : Option String) : List PYQ :=
  if subject_truthy subject then
    pyqs.filter (fun p => p.subject = subject.getD "")
  else pyqs

/-- load_vectorstore_from_db (src/rag_pipeline.py): query the PYQ table
(filtered by subject when truthy), return none when no rows exist, else
build the FAISS index over exactly the corresponding documents.  Building
the index calls the embeddings API and may raise; on success the index
holds exactly the documents it was built from. -/
def load_vectorstore_from_db (w : World) (pyqs : List PYQ) (subject : Option String) :
    Except String (Option (List Document)) :=
  let selected := subject_filter pyqs subject
  if selected.isEmpty then .ok none
  else
    let docs := selected.map to_document
    if w.from_documents_fails docs then .error "embedding failed"
    else .ok (some docs)

/-- semantic_search_db (src/rag_pipeline.py): build the vectorstore from the
database; empty result when there is no data; otherwise
similarity_search(query, k), which returns the k most similar stored
documents. -/
def semantic_search_db (w : World) (pyqs : List PYQ) (query : String)
    (subject : Option String) (k : Nat := 5) : Except String (List Document) :=
  match load_vectorstore_from_db w pyqs subject with
  | .error e => .error e
  | .ok none => .ok []
  | .ok (some docs) => .ok ((w.similarity_rank query docs).take k)

/-- get_relevant_pyqs (src/rag_pipeline.py): semantic similarity search
only, default limit k = 3. -/
def get_relevant_pyqs (w : World) (pyqs : List PYQ) (query : String)
    (subject : Option String) (k : Nat := 3) : Except String (List Document) :=
  semantic_search_db w pyqs query subject k

/-! ## src/fastapi_app.py -/

/-- Python str.endswith applied to ".pdf" (src/fastapi_app.py,
file.filename.endswith).  Modelled on the character list; Lean's byte-level
String.endsWith does not reduce in the kernel. -/
def ends_with_pdf (filename : String) : Bool :=
  ".pdf".data.isSuffixOf filename.data

/-- The answer-extraction prompt built by extract_answer_from_chunk
(src/fastapi_app.py), parameterized by the chunk text and the question
text. -/
def answer_prompt (chunk question : String) : String :=
  "Given the following notes and a question, extract the exact sentence(s) from the notes that directly answer the question if possible. Only return the excerpt(s), not any explanation.\n\nNotes:\n"
    ++ chunk ++ "\n\nQuestion:\n" ++ question ++ "\n\nAnswer/excerpt:"

/-- The placeholder answer used when no answer text was produced. -/
def no_answer : String := "(No direct answer found)"

/-- extract_answer_from_chunk (src/fastapi_app.py): one LLM call on the
prompt built from the chunk and the question; the stripped output on
success and the empty string when the call raises. -/
def extract_answer_from_chunk (w : World) (chunk question : String) : String :=
  match w.answerLLM (answer_prompt chunk question) with
  | .ok ans => py_strip ans
  | .error _ => ""

/-- The question dictionary assembled for one matched document: fields
copied from the document metadata, answer as given. -/
def mk_question_data (q : Document) (answer : String) : QuestionData :=
  { question := q.page_content
    sub_topic := q.sub_topic
    marks := q.marks
    year := q.year
    answer := answer }

/-- The body of the per-question loop in process_pdf (src/fastapi_app.py):
one answer-extraction call; when the answer text is non-empty its sentences
are stripped and the non-empty ones collected for highlighting; the
question dictionary records the answer text, or the no-answer placeholder
when the answer text is empty.  The whole body runs under a try/except
whose only fallible step (after the internally-caught LLM call) is the
sentence tokenizer; when it raises the loop continues and the question is
skipped, which the none result records. -/
def process_question (w : World) (chunk : String) (q : Document) :
    Option (QuestionData × List String) :=
  let answer_text := extract_answer_from_chunk w chunk q.page_content
  if answer_text = "" then
    some (mk_question_data q no_answer, [])
  else
    match w.sent_tokenize answer_text with
    | .error _ => none
    | .ok sents =>
        some (mk_question_data q answer_text,
          (sents.map py_strip).filter (fun s => s ≠ ""))

/-- The highlight fragments a matched question contributes (none when the
question is skipped). -/
def frags_of (w : World) (chunk : String) (q : Document) : List String :=
  match process_question w chunk q with
  | some pr => pr.2
  | none => []

/-- The matched questions of a chunk: get_relevant_pyqs at its default
limit, and the empty list when retrieval raises (the surrounding
try/except in process_pdf). -/
def relevant_or_empty (w : World) (pyqs : List PYQ) (subject chunk : String) :
    List Document :=
  match get_relevant_pyqs w pyqs chunk (some subject) with
  | .ok l => l
  | .error _ => []

/-- The highlight marks applied to page i: every non-empty answer fragment
at every location page.search_for finds it. -/
def highlight_annots (w : World) (i : Nat) (frags : List String) :
    List (String × Rect) :=
  frags.flatMap (fun frag =>
    if frag = "" then [] else (w.search_for i frag).map (fun r => (frag, r)))

/-- The highlighted-image block of process_pdf: starts from the empty
string; when i is a valid page index, highlight every fragment wherever it
is found, then render the page; any exception in the block leaves the empty
string. -/
def render_chunk_image (w : World) (i num_pages : Nat) (frags : List String) :
    String :=
  if i < num_pages then
    match w.render_page i (highlight_annots w i frags) with
    | .ok b64 => b64
    | .error _ => ""
  else ""

/-- One iteration of the main loop of process_pdf (src/fastapi_app.py) for
chunk i, together with the trace of external calls it performs, in order:
subtopic inference, then PYQ retrieval, then one answer-extraction call per
matched question, then page rendering. -/
def process_chunk (w : World) (pyqs : List PYQ) (subject : String)
    (num_pages i : Nat) (chunk : String) : ChunkData × List Event :=
  let subtopic := infer_subtopic w chunk
  let related_qs := relevant_or_empty w pyqs subject chunk
  let qres := related_qs.map (fun q => process_question w chunk q)
  let questions_data := (qres.filterMap id).map Prod.fst
  let answers_to_highlight := ((qres.filterMap id).map Prod.snd).flatten
  let qevents := related_qs.enum.map
    (fun p => Event.answerCall i p.1 chunk p.2.page_content)
  let highlighted_image := render_chunk_image w i num_pages answers_to_highlight
  ({ chunk_index := i
     subtopic := subtopic
     questions := questions_data
     highlighted_image := highlighted_image
     answers_highlighted := answers_to_highlight },
   Event.subtopicCall i :: Event.retrievalCall i :: qevents
     ++ [Event.renderCall i])

/-- The /process-pdf handler (src/fastapi_app.py).  Rejects non-.pdf
filenames with 400.  Extracts one text chunk per page; when the chunk list
is empty the HTTPException(400) raised inside the try block is caught by
the blanket except handler and re-raised as a 500 whose detail wraps the
original message.  Otherwise every chunk is processed in order and the
response carries one ChunkData per chunk.  Returns the response outcome
paired with the trace of external calls. -/
def process_pdf (w : World) (pdf : PDF) (filename subject : String)
    (pyqs : List PYQ) :
    Except HttpError ProcessedPDFResponse × List Event :=
  if ¬ ends_with_pdf filename then
    (.error { status := 400, detail := "Only PDF files are allowed" }, [])
  else
    let text_chunks := extract_text_from_pdf pdf
    if text_chunks.isEmpty then
      (.error { status := 500
                detail := "Failed to process PDF: 400: Could not extract content from the PDF" },
       [Event.extractText])
    else
      let num_pages := pdf.pages.length
      let results := text_chunks.enum.map
        (fun p => process_chunk w pyqs subject num_pages p.1 p.2)
      (.ok { success := true
             message := "PDF processed successfully"
             total_chunks := text_chunks.length
             chunk_data := results.map Prod.fst },
       Event.extractText :: (results.map Prod.snd).flatten)

/-- The /upload-pdf handler (src/fastapi_app.py).  Rejects non-.pdf
filenames with 400 before touching the database.  Otherwise a PDFHistory
row is committed first; only then is the text extracted.  When no chunk is
extracted the handler deletes the temp file and raises HTTPException(400),
but that exception is caught by the blanket except handler, whose own
cleanup call (os.unlink on the already-deleted temp file) raises
FileNotFoundError; the escaping exception makes the framework answer 500
Internal Server Error.  Either way the committed history row persists. -/
def upload_pdf (pdf : PDF) (filename subject : String) (ts : Nat)
    (history : List HistoryRec) :
    List HistoryRec × Except HttpError PDFResponse :=
  if ¬ ends_with_pdf filename then
    (history, .error { status := 400, detail := "Only PDF files are allowed" })
  else
    let history2 := history ++ [⟨filename, subject, ts⟩]
    let text_chunks := extract_text_from_pdf pdf
    if text_chunks.isEmpty then
      (history2, .error { status := 500, detail := "Internal Server Error" })
    else
      (history2, .ok { success := true
                       message := "PDF uploaded successfully"
                       chunks_count := text_chunks.length })

/-! ## src/crud.py -/

/-- The PYQ row built from one JSON entry by store_pyqs, or none when the
entry has no non-empty question field (Python: if not question, with the
entry.get defaults for the other fields). -/
def entry_to_pyq (subject : String) (e : PyqEntry) : Option PYQ :=
  match e.question with
  | none => none
  | some q =>
      if q = "" then none
      else some
        { question := q
          year := e.year.getD ""
          semester := none
          branch := none
          unit := none
          marks := e.marks.getD 0
          sub_topic := e.sub_topic.getD ""
          subject := subject }

/-- store_pyqs (src/crud.py): collect a row for every entry with a
non-empty question, then add_all and commit as one batch.  On success the
rows are appended to the table and the count of collected rows is returned;
when the commit raises, the session is rolled back (nothing persisted) and
0 is returned.  commit_fails models whether the database raises on this
batch. -/
def store_pyqs (commit_fails : Bool) (db : List PYQ) (pyqs : List PyqEntry)
    (subject : String) : List PYQ × Nat :=
  let pyq_objects := pyqs.filterMap (entry_to_pyq subject)
  if commit_fails then (db, 0)
  else (db ++ pyq_objects, pyq_objects.length)

/-- Whether a JSON entry has a non-empty question field: the validity
condition store_pyqs filters on (Python: if not question). -/
def has_nonempty_question (e : PyqEntry) : Bool :=
  match e.question with
  | some q => q ≠ ""
  | none => false

/-! ## Concrete instances used to exercise the definitions -/

/-- A sample rectangle. -/
def rect1 : Rect := ⟨0, 0, 10, 10⟩

/-- A world in which every external call succeeds: the subtopic LLM returns
a padded label, the answer LLM returns a padded excerpt, the tokenizer
yields one sentence, indexing succeeds, similarity ranking keeps the store
order, every fragment is found once, and rendering yields a fixed image
string. -/
def wOk : World :=
  { subtopicLLM := fun _ => .ok " Network Security "
    answerLLM := fun _ => .ok " A firewall filters packets. "
    sent_tokenize := fun s => .ok [s]
    from_documents_fails := fun _ => false
    similarity_rank := fun _ docs => docs
    search_for := fun _ _ => [rect1]
    render_page := fun _ _ => .ok "IMG" }

/-- A world in which every external call raises. -/
def wFail : World :=
  { subtopicLLM := fun _ => .error "api down"
    answerLLM := fun _ => .error "api down"
    sent_tokenize := fun _ => .error "tokenizer missing"
    from_documents_fails := fun _ => true
    similarity_rank := fun _ _ => []
    search_for := fun _ _ => []
    render_page := fun _ _ => .error "render failed" }

/-- A sample PYQ row. -/
def pyq1 : PYQ :=
  ⟨"What is a firewall?", "2021", none, none, none, 5, "Firewall", "CN"⟩

/-- A second sample PYQ row under another subject. -/
def pyq2 : PYQ :=
  ⟨"Define pollution.", "2020", none, none, none, 2, "Pollution", "EVS"⟩

/-- A sample PYQ table. -/
def samplePyqs : List PYQ := [pyq1, pyq2]

/-- A sample two-page PDF. -/
def pdf1 : PDF := ⟨[⟨"A firewall filters packets."⟩, ⟨"Second page text."⟩]⟩

/-- Erases the subtopic field of a chunk, keeping every other output. -/
def scrub_chunk (cd : ChunkData) : ChunkData :=
  ⟨cd.chunk_index, "", cd.questions, cd.highlighted_image, cd.answers_highlighted⟩

/-- Erases every subtopic field of a response, keeping every other output. -/
def scrub_resp (r : ProcessedPDFResponse) : ProcessedPDFResponse :=
  ⟨r.success, r.message, r.total_chunks, r.chunk_data.map scrub_chunk⟩

/-! ## Helper lemmas -/

/-- Unfolds the ChunkData component produced for one chunk. -/
theorem process_chunk_fst (w : World) (pyqs : List PYQ) (subject : String)
    (num_pages i : Nat) (chunk : String) :
    (process_chunk w pyqs subject num_pages i chunk).1 =
      { chunk_index := i
        subtopic := infer_subtopic w chunk
        questions := (((relevant_or_empty w pyqs subject chunk).map
            (process_question w chunk)).filterMap id).map Prod.fst
        highlighted_image := render_chunk_image w i num_pages
          ((((relevant_or_empty w pyqs subject chunk).map
              (process_question w chunk)).filterMap id).map Prod.snd).flatten
        answers_highlighted := (((relevant_or_empty w pyqs subject chunk).map
            (process_question w chunk)).filterMap id).map Prod.snd |>.flatten } := rfl

/-- Unfolds the event trace produced for one chunk. -/
theorem process_chunk_snd (w : World) (pyqs : List PYQ) (subject : String)
    (num_pages i : Nat) (chunk : String) :
    (process_chunk w pyqs subject num_pages i chunk).2 =
      Event.subtopicCall i :: Event.retrievalCall i ::
        (relevant_or_empty w pyqs subject chunk).enum.map
          (fun p => Event.answerCall i p.1 chunk p.2.page_content)
        ++ [Event.renderCall i] := rfl

/-- On a .pdf filename and a PDF with at least one page, /process-pdf
succeeds and its response and trace are the per-chunk results in order. -/
theorem process_pdf_ok (w : World) (pdf : PDF) (filename subject : String)
    (pyqs : List PYQ) (hname : ends_with_pdf filename = true)
    (hpages : pdf.pages ≠ []) :
    process_pdf w pdf filename subject pyqs =
      (.ok { success := true
             message := "PDF processed successfully"
             total_chunks := pdf.pages.length
             chunk_data := (extract_text_from_pdf pdf).enum.map
               (fun p => (process_chunk w pyqs subject pdf.pages.length p.1 p.2).1) },
       Event.extractText ::
         ((extract_text_from_pdf pdf).enum.map
           (fun p => (process_chunk w pyqs subject pdf.pages.length p.1 p.2).2)).flatten) := by
  have hne : (extract_text_from_pdf pdf).isEmpty = false := by
    simp [extract_text_from_pdf, List.isEmpty_iff, hpages]
  simp only [process_pdf, hname, Bool.not_true, extract_text_from_pdf]
  simp [hne, hpages, extract_text_from_pdf, List.map_map, Function.comp_def]

/-- The matched question list of a chunk never exceeds the default
similarity limit of 3. -/
theorem relevant_or_empty_length_le (w : World) (pyqs : List PYQ)
    (subject chunk : String) :
    (relevant_or_empty w pyqs subject chunk).length ≤ 3 := by
  unfold relevant_or_empty get_relevant_pyqs semantic_search_db
  cases h : load_vectorstore_from_db w pyqs (some subject) with
  | error e => simp [h]
  | ok o =>
      cases o with
      | none => simp [h]
      | some docs => simp [h, List.length_take]

/-! ## Claims -/

/-- C1: for every uploaded PDF the pipeline produces exactly one text chunk
per PDF page, chunk i being the plain text extracted from page i; the
successful /process-pdf response has total_chunks equal to the page count,
one ChunkData per page, and chunk_data[i].chunk_index = i, the chunk
processed at index i being the text of page i. -/
theorem c1_one_chunk_per_page (w : World) (pdf : PDF) (filename subject : String)
    (pyqs : List PYQ) (hname : ends_with_pdf filename = true)
    (hpages : pdf.pages ≠ []) :
    extract_text_from_pdf pdf = pdf.pages.map Page.text ∧
    ∃ resp : ProcessedPDFResponse,
      (process_pdf w pdf filename subject pyqs).1 = .ok resp ∧
      resp.total_chunks = pdf.pages.length ∧
      resp.chunk_data.length = pdf.pages.length ∧
      ∀ (i : Nat) (h : i < pdf.pages.length),
        ∃ hh : i < resp.chunk_data.length,
          (resp.chunk_data.get ⟨i, hh⟩).chunk_index = i ∧
          resp.chunk_data.get ⟨i, hh⟩ =
            (process_chunk w pyqs subject pdf.pages.length i
              ((pdf.pages.get ⟨i, h⟩).text)).1 := by
  refine ⟨rfl, ?_⟩
  rw [show (process_pdf w pdf filename subject pyqs).1 =
      (process_pdf w pdf filename subject pyqs).1 from rfl]
  rw [process_pdf_ok w pdf filename subject pyqs hname hpages]
  refine ⟨_, rfl, rfl, ?_, ?_⟩
  · simp [extract_text_from_pdf]
  · intro i h
    have hh : i < ((extract_text_from_pdf pdf).enum.map
        (fun p => (process_chunk w pyqs subject pdf.pages.length p.1 p.2).1)).length := by
      simp [extract_text_from_pdf, h]
    refine ⟨hh, ?_, ?_⟩
    · simp [List.get_eq_getElem, List.getElem_map, List.getElem_enum,
        extract_text_from_pdf, process_chunk]
    · simp [List.get_eq_getElem, List.getElem_map, List.getElem_enum,
        extract_text_from_pdf]

/-- Witness for C1 at a concrete world, PDF and request. -/
theorem c1_witness :
    (ends_with_pdf "notes.pdf" = true) ∧ (pdf1.pages ≠ []) ∧
    (extract_text_from_pdf pdf1 = pdf1.pages.map Page.text ∧
     ∃ resp : ProcessedPDFResponse,
       (process_pdf wOk pdf1 "notes.pdf" "CN" samplePyqs).1 = .ok resp ∧
       resp.total_chunks = pdf1.pages.length ∧
       resp.chunk_data.length = pdf1.pages.length ∧
       ∀ (i : Nat) (h : i < pdf1.pages.length),
         ∃ hh : i < resp.chunk_data.length,
           (resp.chunk_data.get ⟨i, hh⟩).chunk_index = i ∧
           resp.chunk_data.get ⟨i, hh⟩ =
             (process_chunk wOk samplePyqs "CN" pdf1.pages.length i
               ((pdf1.pages.get ⟨i, h⟩).text)).1) :=
  ⟨by decide, by decide,
    c1_one_chunk_per_page wOk pdf1 "notes.pdf" "CN" samplePyqs (by decide) (by decide)⟩

/-- C6: store_pyqs collects exactly the entries with a non-empty question
field, inserts them as one batch appended on success with the count of
valid entries returned, and on a database error leaves the table unchanged
and returns 0. -/
theorem c6_store_pyqs_batch (commit_fails : Bool) (db : List PYQ)
    (entries : List PyqEntry) (subject : String) :
    store_pyqs commit_fails db entries subject =
      (if commit_fails then (db, 0)
       else (db ++ entries.filterMap (entry_to_pyq subject),
             (entries.filterMap (entry_to_pyq subject)).length)) ∧
    (entries.filterMap (entry_to_pyq subject)).length =
      entries.countP has_nonempty_question ∧
    ∀ e : PyqEntry, (entry_to_pyq subject e).isSome = has_nonempty_question e := by
  have hiff : ∀ e : PyqEntry, (entry_to_pyq subject e).isSome = has_nonempty_question e := by
    intro e
    cases hq : e.question with
    | none => simp [entry_to_pyq, has_nonempty_question, hq]
    | some q =>
        by_cases hq2 : q = "" <;> simp [entry_to_pyq, has_nonempty_question, hq, hq2]
  refine ⟨rfl, ?_, hiff⟩
  induction entries with
  | nil => rfl
  | cons e es ih =>
      have := hiff e
      cases h : entry_to_pyq subject e <;>
        simp [List.filterMap_cons, List.countP_cons, h, ih, ← this]

/-- C9: every chunk of a successful /process-pdf response carries at most 3
matched questions, the default similarity limit. -/
theorem c9_at_most_three (w : World) (pdf : PDF) (filename subject : String)
    (pyqs : List PYQ) (resp : ProcessedPDFResponse)
    (h : (process_pdf w pdf filename subject pyqs).1 = .ok resp) :
    ∀ cd ∈ resp.chunk_data, cd.questions.length ≤ 3 := by
  unfold process_pdf at h
  split at h
  · simp at h
  · dsimp only at h
    split at h
    · simp at h
    · simp only at h
      injection h with h2
      subst h2
      intro cd hcd
      simp only [List.mem_map] at hcd
      obtain ⟨p, ⟨a, ha, hpa⟩, hp⟩ := hcd
      subst hp
      subst hpa
      rw [process_chunk_fst]
      calc ((((relevant_or_empty w pyqs subject a.2).map
              (process_question w a.2)).filterMap id).map Prod.fst).length
          ≤ (relevant_or_empty w pyqs subject a.2).length := by
            rw [List.length_map]
            exact le_trans (List.length_filterMap_le _ _)
              (le_of_eq (List.length_map _ _))
        _ ≤ 3 := relevant_or_empty_length_le w pyqs subject a.2

/-- Witness for C9 at a concrete world, PDF and request. -/
theorem c9_witness :
    ∃ resp : ProcessedPDFResponse,
      (process_pdf wOk pdf1 "notes.pdf" "CN" samplePyqs).1 = .ok resp ∧
      ∀ cd ∈ resp.chunk_data, cd.questions.length ≤ 3 := by
  refine ⟨((process_pdf wOk pdf1 "notes.pdf" "CN" samplePyqs).1.toOption).getD
    ⟨false, "", 0, []⟩, by rfl, ?_⟩
  exact c9_at_most_three wOk pdf1 "notes.pdf" "CN" samplePyqs _ (by rfl)

/-- C10 counterexample: on an empty-paged .pdf upload the handler answers
status 500, not 400 (the HTTPException(400) raised inside the try block is
caught by the blanket except handler, whose cleanup raises), while the
history row has been committed. -/
theorem c10_counterexample_status_500 :
    upload_pdf (⟨[]⟩ : PDF) "notes.pdf" "CN" 0 [] =
      ([⟨"notes.pdf", "CN", 0⟩],
       .error { status := 500, detail := "Internal Server Error" }) ∧
    (500 : Nat) ≠ 400 := by
  constructor
  · rfl
  · decide

/-- C10 (amended): when /upload-pdf receives a .pdf file from which no page
text chunks are extracted, the request fails with status 500 (the
HTTPException(400) is swallowed by the blanket except handler whose own
cleanup raises), yet the PDFHistory row committed before extraction
persists. -/
theorem c10_amended_history_persists (pdf : PDF) (filename subject : String)
    (ts : Nat) (history : List HistoryRec)
    (hname : ends_with_pdf filename = true)
    (hempty : extract_text_from_pdf pdf = []) :
    upload_pdf pdf filename subject ts history =
      (history ++ [⟨filename, subject, ts⟩],
       .error { status := 500, detail := "Internal Server Error" }) := by
  unfold upload_pdf
  simp [hname, hempty]

/-- Witness for the amended C10 at a concrete upload. -/
theorem c10_witness :
    (ends_with_pdf "scan.pdf" = true) ∧
    (extract_text_from_pdf (⟨[]⟩ : PDF) = []) ∧
    upload_pdf (⟨[]⟩ : PDF) "scan.pdf" "EVS" 3 [] =
      ([⟨"scan.pdf", "EVS", 3⟩],
       .error { status := 500, detail := "Internal Server Error" }) :=
  ⟨by decide, rfl,
    c10_amended_history_persists (⟨[]⟩ : PDF) "scan.pdf" "EVS" 3 [] (by decide) rfl⟩

/-- C2: a failure of subtopic inference, of PYQ retrieval, or of answer
extraction never fails the whole /process-pdf request: the response still
succeeds with one ChunkData per chunk; a chunk whose subtopic LLM call
raises gets subtopic "General"; a chunk whose retrieval raises gets an
empty question list (and no highlights); a question whose answer LLM call
raises is kept with the no-answer placeholder; a question whose sentence
tokenization raises is skipped. -/
theorem c2_error_suppression (w : World) (pdf : PDF) (filename subject : String)
    (pyqs : List PYQ) (hname : ends_with_pdf filename = true)
    (hpages : pdf.pages ≠ []) :
    (∃ resp : ProcessedPDFResponse,
      (process_pdf w pdf filename subject pyqs).1 = .ok resp ∧
      resp.chunk_data.length = (extract_text_from_pdf pdf).length) ∧
    (∀ (num_pages i : Nat) (c : String) (e : String),
      w.subtopicLLM (subtopic_prompt c) = .error e →
      (process_chunk w pyqs subject num_pages i c).1.subtopic = "General") ∧
    (∀ (num_pages i : Nat) (c : String) (e : String),
      get_relevant_pyqs w pyqs c (some subject) = .error e →
      (process_chunk w pyqs subject num_pages i c).1.questions = [] ∧
      (process_chunk w pyqs subject num_pages i c).1.answers_highlighted = []) ∧
    (∀ (c : String) (q : Document) (e : String),
      w.answerLLM (answer_prompt c q.page_content) = .error e →
      process_question w c q = some (mk_question_data q no_answer, [])) ∧
    (∀ (c : String) (q : Document) (s e : String),
      w.answerLLM (answer_prompt c q.page_content) = .ok s →
      py_strip s ≠ "" →
      w.sent_tokenize (py_strip s) = .error e →
      process_question w c q = none) := by
  refine ⟨?_, ?_, ?_, ?_, ?_⟩
  · refine ⟨_, congrArg Prod.fst
      (process_pdf_ok w pdf filename subject pyqs hname hpages) |>.trans rfl, ?_⟩
    simp
  · intro num_pages i c e herr
    rw [process_chunk_fst]
    simp [infer_subtopic, herr]
  · intro num_pages i c e herr
    rw [process_chunk_fst]
    simp [relevant_or_empty, herr]
  · intro c q e herr
    unfold process_question
    simp [extract_answer_from_chunk, herr]
  · intro c q s e hok hne herr
    unfold process_question
    simp [extract_answer_from_chunk, hok, hne, herr]

/-- Witness for C2: with every external call failing, the request still
succeeds, the chunk carries subtopic "General" and no questions, and a
question whose extraction call fails keeps the no-answer placeholder. -/
theorem c2_witness :
    (ends_with_pdf "notes.pdf" = true) ∧ pdf1.pages ≠ [] ∧
    (∃ resp : ProcessedPDFResponse,
      (process_pdf wFail pdf1 "notes.pdf" "CN" samplePyqs).1 = .ok resp ∧
      resp.chunk_data.length = (extract_text_from_pdf pdf1).length) ∧
    (process_chunk wFail samplePyqs "CN" 2 0 "some notes").1.subtopic = "General" ∧
    (process_chunk wFail samplePyqs "CN" 2 0 "some notes").1.questions = [] ∧
    process_question wFail "some notes" (to_document pyq1) =
      some (mk_question_data (to_document pyq1) no_answer, []) := by
  have h := c2_error_suppression wFail pdf1 "notes.pdf" "CN" samplePyqs
    (by decide) (by decide)
  refine ⟨by decide, by decide, h.1, ?_, ?_, ?_⟩
  · exact h.2.1 2 0 "some notes" "api down" rfl
  · exact (h.2.2.1 2 0 "some notes" "embedding failed" rfl).1
  · exact h.2.2.2.1 "some notes" (to_document pyq1) "api down" rfl

/-- C3: the matched questions come from a vector-similarity search over
exactly the stored PYQ records whose subject equals the requested subject
(all stored records when no subject is given), and the search returns the
empty list when no such records exist.  The hypothesis states the FAISS
contract that similarity search only returns stored documents. -/
theorem c3_retrieval_scope (w : World) (pyqs : List PYQ) (query : String)
    (subject : Option String)
    (hsub : ∀ (q : String) (st : List Document), ∀ d ∈ w.similarity_rank q st, d ∈ st) :
    (subject_truthy subject = false → subject_filter pyqs subject = pyqs) ∧
    (subject_truthy subject = true →
      subject_filter pyqs subject =
        pyqs.filter (fun p => p.subject = subject.getD "")) ∧
    (subject_filter pyqs subject = [] →
      get_relevant_pyqs w pyqs query subject = .ok []) ∧
    (∀ docs, get_relevant_pyqs w pyqs query subject = .ok docs →
      ∀ d ∈ docs, ∃ p ∈ subject_filter pyqs subject, d = to_document p) ∧
    (subject_filter pyqs subject ≠ [] →
      w.from_documents_fails ((subject_filter pyqs subject).map to_document) = false →
      get_relevant_pyqs w pyqs query subject =
        .ok ((w.similarity_rank query
          ((subject_filter pyqs subject).map to_document)).take 3)) := by
  refine ⟨?_, ?_, ?_, ?_, ?_⟩
  · intro h; simp [subject_filter, h]
  · intro h; simp [subject_filter, h]
  · intro h
    unfold get_relevant_pyqs semantic_search_db load_vectorstore_from_db
    simp [h]
  · intro docs hdocs d hd
    unfold get_relevant_pyqs semantic_search_db load_vectorstore_from_db at hdocs
    by_cases hemp : (subject_filter pyqs subject).isEmpty
    · simp [hemp] at hdocs
      subst hdocs
      simp at hd
    · by_cases hf : w.from_documents_fails ((subject_filter pyqs subject).map to_document)
      · simp [hemp, hf] at hdocs
      · simp [hemp, hf] at hdocs
        subst hdocs
        have hd2 : d ∈ w.similarity_rank query
            ((subject_filter pyqs subject).map to_document) := List.mem_of_mem_take hd
        have hd3 := hsub query _ d hd2
        simp only [List.mem_map] at hd3
        obtain ⟨p, hp, hpd⟩ := hd3
        exact ⟨p, hp, hpd.symm⟩
  · intro hne hf
    unfold get_relevant_pyqs semantic_search_db load_vectorstore_from_db
    simp [List.isEmpty_iff, hne, hf]

/-- Witness for C3 at a concrete world and store whose ranking oracle
satisfies the stored-documents contract. -/
theorem c3_witness :
    (∀ (q : String) (st : List Document), ∀ d ∈ wOk.similarity_rank q st, d ∈ st) ∧
    ((subject_truthy (some "CN") = false → subject_filter samplePyqs (some "CN") = samplePyqs) ∧
     (subject_truthy (some "CN") = true →
       subject_filter samplePyqs (some "CN") =
         samplePyqs.filter (fun p => p.subject = (some "CN").getD "")) ∧
     (subject_filter samplePyqs (some "CN") = [] →
       get_relevant_pyqs wOk samplePyqs "firewall" (some "CN") = .ok []) ∧
     (∀ docs, get_relevant_pyqs wOk samplePyqs "firewall" (some "CN") = .ok docs →
       ∀ d ∈ docs, ∃ p ∈ subject_filter samplePyqs (some "CN"), d = to_document p) ∧
     (subject_filter samplePyqs (some "CN") ≠ [] →
       wOk.from_documents_fails
         ((subject_filter samplePyqs (some "CN")).map to_document) = false →
       get_relevant_pyqs wOk samplePyqs "firewall" (some "CN") =
         .ok ((wOk.similarity_rank "firewall"
           ((subject_filter samplePyqs (some "CN")).map to_document)).take 3))) :=
  ⟨fun _ _ _ hd => hd,
    c3_retrieval_scope wOk samplePyqs "firewall" (some "CN") (fun _ _ _ hd => hd)⟩

/-- C4: for each question matched to a chunk, exactly one answer-extraction
LLM call is made with that chunk and that question; the answer field equals
the stripped model output when that is non-empty, and the no-answer
placeholder when the call fails or the stripped output is empty, in which
case the question contributes nothing to the highlight list. -/
theorem c4_answer_extraction (w : World) (pyqs : List PYQ) (subject : String)
    (num_pages i : Nat) (chunk : String) :
    ((process_chunk w pyqs subject num_pages i chunk).2.filter Event.isAnswerCall =
      (relevant_or_empty w pyqs subject chunk).enum.map
        (fun p => Event.answerCall i p.1 chunk p.2.page_content)) ∧
    (∀ q : Document,
      (∀ e, w.answerLLM (answer_prompt chunk q.page_content) = .error e →
        extract_answer_from_chunk w chunk q.page_content = "") ∧
      (∀ s, w.answerLLM (answer_prompt chunk q.page_content) = .ok s →
        extract_answer_from_chunk w chunk q.page_content = py_strip s) ∧
      (extract_answer_from_chunk w chunk q.page_content ≠ "" →
        process_question w chunk q = none ∨
        ∃ frags, process_question w chunk q =
          some (mk_question_data q (extract_answer_from_chunk w chunk q.page_content), frags)) ∧
      (extract_answer_from_chunk w chunk q.page_content = "" →
        process_question w chunk q = some (mk_question_data q no_answer, []))) := by
  constructor
  · rw [process_chunk_snd]
    simp only [List.filter_cons, List.filter_append]
    simp [Event.isAnswerCall, List.filter_eq_self]
    intro a x x2 _ ha
    subst ha
    rfl
  · intro q
    refine ⟨?_, ?_, ?_, ?_⟩
    · intro e herr
      simp [extract_answer_from_chunk, herr]
    · intro s hok
      simp [extract_answer_from_chunk, hok]
    · intro hne
      unfold process_question
      rw [if_neg hne]
      cases htok : w.sent_tokenize (extract_answer_from_chunk w chunk q.page_content) with
      | error e => exact Or.inl rfl
      | ok sents => exact Or.inr ⟨_, rfl⟩
    · intro hz
      unfold process_question
      rw [if_pos hz]

/-- Witness for C4 at a concrete world and chunk: the trace carries exactly
one answer call for the single matched question, the answer equals the
stripped model output, and a failing call yields the placeholder with no
highlight contribution. -/
theorem c4_witness :
    ((process_chunk wOk samplePyqs "CN" 2 0 "A firewall filters packets.").2.filter
        Event.isAnswerCall =
      [Event.answerCall 0 0 "A firewall filters packets." "What is a firewall?"]) ∧
    extract_answer_from_chunk wOk "A firewall filters packets."
      (to_document pyq1).page_content = py_strip " A firewall filters packets. " ∧
    process_question wFail "A firewall filters packets." (to_document pyq1) =
      some (mk_question_data (to_document pyq1) no_answer, []) := by
  have h := c4_answer_extraction wOk samplePyqs "CN" 2 0 "A firewall filters packets."
  have h2 := c4_answer_extraction wFail samplePyqs "CN" 2 0 "A firewall filters packets."
  refine ⟨h.1.trans (by decide), ?_, ?_⟩
  · exact (h.2 (to_document pyq1)).2.1 " A firewall filters packets. " rfl
  · exact (h2.2 (to_document pyq1)).2.2.2
      ((h2.2 (to_document pyq1)).1 "api down" rfl)

/-- The highlight fragments contributed by one question are the stripped
non-empty sentences of its non-empty extracted answer, and nothing
otherwise. -/
theorem flatten_snd_eq_flatMap_frags (w : World) (chunk : String) :
    ∀ l : List Document,
      ((l.filterMap (process_question w chunk)).map Prod.snd).flatten =
        (l.map (frags_of w chunk)).flatten := by
  intro l
  induction l with
  | nil => rfl
  | cons q qs ih =>
      cases h : process_question w chunk q with
      | none => simp [List.filterMap_cons, h, frags_of, ih]
      | some pr => simp [List.filterMap_cons, h, frags_of, ih]

/-- Every collected highlight fragment is non-empty. -/
theorem answers_highlighted_ne_empty (w : World) (pyqs : List PYQ)
    (subject : String) (num_pages i : Nat) (chunk : String) :
    ∀ f ∈ (process_chunk w pyqs subject num_pages i chunk).1.answers_highlighted,
      f ≠ "" := by
  intro f hf
  rw [process_chunk_fst] at hf
  simp only [List.mem_flatten, List.mem_map, List.mem_filterMap, id_eq] at hf
  obtain ⟨l, ⟨pr, ⟨⟨oq, ⟨⟨q, hq, hoq⟩, hpr⟩⟩, hl⟩⟩, hfl⟩ := hf
  subst hoq
  subst hl
  unfold process_question at hpr
  dsimp only at hpr
  split at hpr
  · cases hpr
    simp at hfl
  · split at hpr
    · cases hpr
    · cases hpr
      simp only [List.mem_filter] at hfl
      simpa using hfl.2

/-- On non-empty fragments, the highlight marks are every fragment at every
location found on the page. -/
theorem highlight_annots_of_ne (w : World) (i : Nat) (frags : List String)
    (hne : ∀ f ∈ frags, f ≠ "") :
    highlight_annots w i frags =
      frags.flatMap (fun f => (w.search_for i f).map (fun r => (f, r))) := by
  unfold highlight_annots
  induction frags with
  | nil => rfl
  | cons f fs ih =>
      have h1 : f ≠ "" := hne f (by simp)
      simp only [List.flatMap_cons, if_neg h1]
      rw [ih (fun g hg => hne g (by simp [hg]))]

/-- C5: the fragments highlighted on the rendered image of a valid page i
are exactly the non-empty stripped sentences of the non-empty answers
extracted for chunk i, in question order, each highlighted at every
location page.search_for finds it; when rendering fails or i is not a
valid page index the highlighted image is the empty string. -/
theorem c5_highlighting (w : World) (pyqs : List PYQ) (subject : String)
    (num_pages i : Nat) (chunk : String) :
    ((process_chunk w pyqs subject num_pages i chunk).1.answers_highlighted =
      ((relevant_or_empty w pyqs subject chunk).map (frags_of w chunk)).flatten) ∧
    (∀ (q : Document) (sents : List String),
      extract_answer_from_chunk w chunk q.page_content ≠ "" →
      w.sent_tokenize (extract_answer_from_chunk w chunk q.page_content) = .ok sents →
      frags_of w chunk q = (sents.map py_strip).filter (fun s => s ≠ "")) ∧
    (∀ q : Document,
      extract_answer_from_chunk w chunk q.page_content = "" →
      frags_of w chunk q = []) ∧
    (i < num_pages →
      (highlight_annots w i
          (process_chunk w pyqs subject num_pages i chunk).1.answers_highlighted =
        ((process_chunk w pyqs subject num_pages i chunk).1.answers_highlighted).flatMap
          (fun f => (w.search_for i f).map (fun r => (f, r)))) ∧
      (∀ b, w.render_page i
          (highlight_annots w i
            (process_chunk w pyqs subject num_pages i chunk).1.answers_highlighted) = .ok b →
        (process_chunk w pyqs subject num_pages i chunk).1.highlighted_image = b) ∧
      (∀ e, w.render_page i
          (highlight_annots w i
            (process_chunk w pyqs subject num_pages i chunk).1.answers_highlighted) = .error e →
        (process_chunk w pyqs subject num_pages i chunk).1.highlighted_image = "")) ∧
    (¬ i < num_pages →
      (process_chunk w pyqs subject num_pages i chunk).1.highlighted_image = "") := by
  refine ⟨?_, ?_, ?_, ?_, ?_⟩
  · rw [process_chunk_fst]
    dsimp only
    rw [show List.filterMap id
          ((relevant_or_empty w pyqs subject chunk).map (process_question w chunk)) =
        (relevant_or_empty w pyqs subject chunk).filterMap (process_question w chunk) by
      simp [List.filterMap_map]]
    exact flatten_snd_eq_flatMap_frags w chunk (relevant_or_empty w pyqs subject chunk)
  · intro q sents hne htok
    unfold frags_of process_question
    rw [if_neg hne, htok]
  · intro q hz
    unfold frags_of process_question
    rw [if_pos hz]
  · intro hlt
    refine ⟨highlight_annots_of_ne w i _
      (answers_highlighted_ne_empty w pyqs subject num_pages i chunk), ?_, ?_⟩
    · intro b hb
      rw [process_chunk_fst] at hb ⊢
      dsimp only at hb ⊢
      unfold render_chunk_image
      rw [if_pos hlt, hb]
    · intro e he
      rw [process_chunk_fst] at he ⊢
      dsimp only at he ⊢
      unfold render_chunk_image
      rw [if_pos hlt, he]
  · intro hge
    rw [process_chunk_fst]
    simp [render_chunk_image, hge]

/-- Witness for C5 at a concrete world, chunk and page. -/
theorem c5_witness :
    ((process_chunk wOk samplePyqs "CN" 2 0 "A firewall filters packets.").1.answers_highlighted =
      ((relevant_or_empty wOk samplePyqs "CN" "A firewall filters packets.").map
        (frags_of wOk "A firewall filters packets.")).flatten) ∧
    ((0 : Nat) < 2) ∧
    (highlight_annots wOk 0
        (process_chunk wOk samplePyqs "CN" 2 0 "A firewall filters packets.").1.answers_highlighted =
      ((process_chunk wOk samplePyqs "CN" 2 0 "A firewall filters packets.").1.answers_highlighted).flatMap
        (fun f => (wOk.search_for 0 f).map (fun r => (f, r)))) ∧
    (wOk.render_page 0
        (highlight_annots wOk 0
          (process_chunk wOk samplePyqs "CN" 2 0 "A firewall filters packets.").1.answers_highlighted) =
      .ok "IMG") ∧
    (process_chunk wOk samplePyqs "CN" 2 0 "A firewall filters packets.").1.highlighted_image = "IMG" := by
  have h := c5_highlighting wOk samplePyqs "CN" 2 0 "A firewall filters packets."
  exact ⟨h.1, by decide, (h.2.2.2.1 (by decide)).1, rfl,
    (h.2.2.2.1 (by decide)).2.1 "IMG" rfl⟩

/-- C7: for every chunk the pipeline steps occur in order: text extraction
first and once, then per chunk in index order: subtopic inference, then
retrieval, then one answer extraction per matched question in order, then
page rendering. -/
theorem c7_pipeline_order (w : World) (pdf : PDF) (filename subject : String)
    (pyqs : List PYQ) (hname : ends_with_pdf filename = true)
    (hpages : pdf.pages ≠ []) :
    (process_pdf w pdf filename subject pyqs).2 =
      Event.extractText ::
        ((extract_text_from_pdf pdf).enum.map (fun p =>
          Event.subtopicCall p.1 :: Event.retrievalCall p.1 ::
            (relevant_or_empty w pyqs subject p.2).enum.map
              (fun qj => Event.answerCall p.1 qj.1 p.2 qj.2.page_content)
            ++ [Event.renderCall p.1])).flatten := by
  rw [process_pdf_ok w pdf filename subject pyqs hname hpages]
  simp only [process_chunk_snd]

/-- Witness for C7 at a concrete world and PDF. -/
theorem c7_witness :
    (ends_with_pdf "notes.pdf" = true) ∧ pdf1.pages ≠ [] ∧
    (process_pdf wOk pdf1 "notes.pdf" "CN" samplePyqs).2 =
      Event.extractText ::
        ((extract_text_from_pdf pdf1).enum.map (fun p =>
          Event.subtopicCall p.1 :: Event.retrievalCall p.1 ::
            (relevant_or_empty wOk samplePyqs "CN" p.2).enum.map
              (fun qj => Event.answerCall p.1 qj.1 p.2 qj.2.page_content)
            ++ [Event.renderCall p.1])).flatten :=
  ⟨by decide, by decide,
    c7_pipeline_order wOk pdf1 "notes.pdf" "CN" samplePyqs (by decide) (by decide)⟩

/-- C8: the inferred subtopic never influences retrieval, answer extraction
or highlighting: two runs whose worlds differ only in the subtopic LLM
yield, after erasing the subtopic field, identical responses — in
particular identical questions, answers, highlight lists and images per
chunk. -/
theorem c8_subtopic_noninterference
    (s1 s2 ans : String → Except String String)
    (tok : String → Except String (List String))
    (ff : List Document → Bool)
    (rank : String → List Document → List Document)
    (sf : Nat → String → List Rect)
    (rp : Nat → List (String × Rect) → Except String String)
    (pdf : PDF) (filename subject : String) (pyqs : List PYQ) :
    (Except.map scrub_resp
        (process_pdf ⟨s1, ans, tok, ff, rank, sf, rp⟩ pdf filename subject pyqs).1 =
     Except.map scrub_resp
        (process_pdf ⟨s2, ans, tok, ff, rank, sf, rp⟩ pdf filename subject pyqs).1) ∧
    (∀ n i c,
      (process_chunk ⟨s1, ans, tok, ff, rank, sf, rp⟩ pyqs subject n i c).1.questions =
        (process_chunk ⟨s2, ans, tok, ff, rank, sf, rp⟩ pyqs subject n i c).1.questions ∧
      (process_chunk ⟨s1, ans, tok, ff, rank, sf, rp⟩ pyqs subject n i c).1.answers_highlighted =
        (process_chunk ⟨s2, ans, tok, ff, rank, sf, rp⟩ pyqs subject n i c).1.answers_highlighted ∧
      (process_chunk ⟨s1, ans, tok, ff, rank, sf, rp⟩ pyqs subject n i c).1.highlighted_image =
        (process_chunk ⟨s2, ans, tok, ff, rank, sf, rp⟩ pyqs subject n i c).1.highlighted_image ∧
      (process_chunk ⟨s1, ans, tok, ff, rank, sf, rp⟩ pyqs subject n i c).1.chunk_index =
        (process_chunk ⟨s2, ans, tok, ff, rank, sf, rp⟩ pyqs subject n i c).1.chunk_index) := by
  have hchunk : ∀ n i c,
      scrub_chunk (process_chunk ⟨s1, ans, tok, ff, rank, sf, rp⟩ pyqs subject n i c).1 =
        scrub_chunk (process_chunk ⟨s2, ans, tok, ff, rank, sf, rp⟩ pyqs subject n i c).1 :=
    fun n i c => rfl
  refine ⟨?_, fun n i c => ⟨rfl, rfl, rfl, rfl⟩⟩
  unfold process_pdf
  by_cases hname : ends_with_pdf filename
  · by_cases hemp : (extract_text_from_pdf pdf).isEmpty
    · simp [hname, hemp]
    · simp only [hname, Bool.not_true, if_false, hemp, Bool.false_eq_true]
      simp [Except.map, scrub_resp, List.map_map, Function.comp_def]
      intro a b _
      exact hchunk pdf.pages.length a b
  · simp [hname]

end IntelliJect
